import Mathlib

/-!
Formal model of the Halakhic schedule and calendar window engine of the
horaires-shabbat repository.  Times of day are modeled as integer minutes
since midnight, Gregorian dates as integer day counts from a fixed Monday
epoch (so that `d % 7` equals the Python `date.weekday()` value), and
instants as rational seconds from a fixed epoch.  Python floor division
`//` is modeled by `Int.fdiv` and Python `%` by `Int.emod`.  Values that
the surrounding application obtains from external collaborators (the
astral sunset/dusk samples and the Hebrew-calendar capability) enter the
model as explicit parameters.
-/

/-- Seasonal regime, the value of `self.season` in the generator. -/
inductive Season where
  | summer
  | winter
deriving DecidableEq

/-- Model of `ShabbatScheduleGenerator.round_to_nearest_five`:
`(minutes // 5) * 5` with Python floor division. -/
def round_to_nearest_five (minutes : Int) : Int :=
  (Int.fdiv minutes 5) * 5

/-- Body of `ShabbatScheduleGenerator.round_to_next_five` on a present value:
`((minutes + 4) // 5) * 5`. -/
def round_to_next_five_val (minutes : Int) : Int :=
  (Int.fdiv (minutes + 4) 5) * 5

/-- Model of `ShabbatScheduleGenerator.round_to_next_five`, which maps
`None` to `None` and otherwise applies `((minutes + 4) // 5) * 5`. -/
def round_to_next_five (minutes : Option Int) : Option Int :=
  minutes.map round_to_next_five_val

/-- The dictionary returned by `calculate_times` in horaires_shabbat.py.
`mincha_hol` and `arvit_hol` stay `none` when a weekday sunset sample is
missing; every other entry is always an integer number of minutes. -/
structure Times where
  mincha_kabbalat : Int
  shir_hashirim : Int
  shacharit : Int
  mincha_gdola : Int
  tehilim : Int
  tehilim_ete : Int
  tehilim_hiver : Int
  shiur_nashim : Int
  arvit_hol : Option Int
  arvit_motsach : Int
  mincha_2 : Int
  shiur_rav : Int
  parashat_hashavua : Int
  mincha_hol : Option Int
deriving DecidableEq

/-- Model of `ShabbatScheduleGenerator.calculate_times` in
horaires_shabbat.py.  `start_minutes` and `end_minutes` are the minute
values computed from `shabbat_start` and `shabbat_end`; the two optional
arguments are the Sunday and Thursday sunset samples (in minutes) that
the Python code obtains from astral and then converts with `to_minutes`;
`season` is the `self.season` field. -/
def calculate_times (season : Season) (start_minutes end_minutes : Int)
    (sunday_sunset thursday_sunset : Option Int) : Times :=
  let tehilim_ete := round_to_nearest_five (17 * 60)
  let tehilim_hiver := round_to_nearest_five (14 * 60)
  let tehilim := if season = Season.summer then tehilim_ete else tehilim_hiver
  let shir_hashirim_rounded := round_to_nearest_five (start_minutes - 10)
  let shir_hashirim :=
    if start_minutes - shir_hashirim_rounded < 10 then start_minutes - 10
    else shir_hashirim_rounded
  let mincha_2 := round_to_nearest_five (end_minutes - 90)
  let shiur_rav := round_to_nearest_five (mincha_2 - 45)
  let parashat_hashavua := round_to_nearest_five (shiur_rav - 45)
  let weekday_times :=
    match sunday_sunset, thursday_sunset with
    | some sunday_sunset_min, some thursday_sunset_min =>
        let min_sunset := min sunday_sunset_min thursday_sunset_min
        let max_sunset := max sunday_sunset_min thursday_sunset_min
        (some (round_to_nearest_five (min_sunset - 18)),
         round_to_next_five (some (max_sunset + 20)))
    | _, _ => ((none : Option Int), (none : Option Int))
  { mincha_kabbalat := start_minutes
    shir_hashirim := shir_hashirim
    shacharit := round_to_nearest_five (7 * 60 + 45)
    mincha_gdola := round_to_nearest_five (12 * 60 + (if season = Season.winter then 30 else 60))
    tehilim := tehilim
    tehilim_ete := tehilim_ete
    tehilim_hiver := tehilim_hiver
    shiur_nashim := 16 * 60 + 15
    arvit_hol := weekday_times.2
    arvit_motsach := round_to_nearest_five (end_minutes - 9)
    mincha_2 := mincha_2
    shiur_rav := shiur_rav
    parashat_hashavua := parashat_hashavua
    mincha_hol := weekday_times.1 }

/-- Floor rounding never moves a value later. -/
theorem round_to_nearest_five_le (x : Int) : round_to_nearest_five x ≤ x := by
  unfold round_to_nearest_five
  rw [Int.fdiv_eq_ediv x (by norm_num)]
  omega

/-- C1: for every valid anchor pair (`end > start`), the schedule produced
by `calculate_times` has `shir_hashirim` no later than `start - 10`:
after `floor5(start - 10)` and the minimum-gap override, the gap
`start - shir_hashirim` is at least 10 minutes. -/
theorem claim1_shir_hashirim_gap (season : Season) (start_minutes end_minutes : Int)
    (sunday_sunset thursday_sunset : Option Int)
    (h : start_minutes < end_minutes) :
    (calculate_times season start_minutes end_minutes
        sunday_sunset thursday_sunset).shir_hashirim ≤ start_minutes - 10 ∧
    10 ≤ start_minutes - (calculate_times season start_minutes end_minutes
        sunday_sunset thursday_sunset).shir_hashirim := by
  have hle := round_to_nearest_five_le (start_minutes - 10)
  simp only [calculate_times]
  split
  · omega
  · omega

/-- Witness for C1 at the anchors start 16:17, end 17:16 of the
2026-12-04 row of the yearly table. -/
theorem claim1_shir_hashirim_gap_witness :
    (977 : Int) < 1036 ∧
    ((calculate_times Season.winter 977 1036 none none).shir_hashirim ≤ 977 - 10 ∧
     10 ≤ 977 - (calculate_times Season.winter 977 1036 none none).shir_hashirim) :=
  ⟨by decide, claim1_shir_hashirim_gap Season.winter 977 1036 none none (by decide)⟩

/-- The dictionary returned by `calculate_times` in united3.py.  There the
weekday evening service `arvit_hol` is always assigned an integer (it is
set to `0` when a dusk sample is missing), while `mincha_hol` stays
`none` when a sunset sample is missing. -/
structure United3Times where
  mincha_kabbalat : Int
  shir_hashirim : Int
  shacharit : Int
  mincha_gdola : Int
  tehilim : Int
  tehilim_ete : Int
  tehilim_hiver : Int
  shiur_nashim : Int
  arvit_hol : Option Int
  arvit_motsach : Int
  mincha_2 : Int
  shiur_rav : Int
  parashat_hashavua : Int
  mincha_hol : Option Int
deriving DecidableEq

/-- Model of `ShabbatScheduleGenerator.calculate_times` in united3.py.
The Sunday and Thursday dusk samples drive `arvit_hol` (average of the
two dusks, floored to five, pushed up to `ceil5(min dusk - 3)` when more
than three minutes before the earlier dusk, and `0` when a sample is
missing); the sunset samples drive `mincha_hol = floor5(min sunset - 17)`.
The inner `is None` guard of the Python code is unreachable because both
dusk strings parse, so it is not modeled. -/
def united3_calculate_times (season : Season) (start_minutes end_minutes : Int)
    (sunday_dusk thursday_dusk sunday_sunset thursday_sunset : Option Int) :
    United3Times :=
  let tehilim_ete := round_to_nearest_five (17 * 60)
  let tehilim_hiver := round_to_nearest_five (14 * 60)
  let tehilim := if season = Season.summer then tehilim_ete else tehilim_hiver
  let shir_hashirim_rounded := round_to_nearest_five (start_minutes - 10)
  let shir_hashirim :=
    if start_minutes - shir_hashirim_rounded < 10 then start_minutes - 10
    else shir_hashirim_rounded
  let mincha_2 := round_to_nearest_five (end_minutes - 90)
  let shiur_rav := round_to_nearest_five (mincha_2 - 45)
  let parashat_hashavua := round_to_nearest_five (shiur_rav - 45)
  let arvit_hol :=
    match sunday_dusk, thursday_dusk with
    | some tse_dimanche, some tse_jeudi =>
        let moyenne := Int.fdiv (tse_dimanche + tse_jeudi) 2
        let tse_min := min tse_dimanche tse_jeudi
        let new_arvit_time := round_to_nearest_five moyenne
        some (if tse_min - new_arvit_time > 3
              then (Int.fdiv (tse_min - 3 + 4) 5) * 5
              else new_arvit_time)
    | _, _ => some 0
  let mincha_hol :=
    match sunday_sunset, thursday_sunset with
    | some sunday_sunset_min, some thursday_sunset_min =>
        some (round_to_nearest_five
          (min sunday_sunset_min thursday_sunset_min - 17))
    | _, _ => (none : Option Int)
  { mincha_kabbalat := start_minutes
    shir_hashirim := shir_hashirim
    shacharit := round_to_nearest_five (7 * 60 + 45)
    mincha_gdola := round_to_nearest_five (12 * 60 + (if season = Season.winter then 30 else 60))
    tehilim := tehilim
    tehilim_ete := tehilim_ete
    tehilim_hiver := tehilim_hiver
    shiur_nashim := 16 * 60
    arvit_hol := arvit_hol
    arvit_motsach := round_to_nearest_five (end_minutes - 5)
    mincha_2 := mincha_2
    shiur_rav := shiur_rav
    parashat_hashavua := parashat_hashavua
    mincha_hol := mincha_hol }

/-- C2 counterexample: in united3.py, with both weekday sunset markers
available (17:22 = 1042 and 17:52 = 1072 minutes) but the dusk markers
unavailable, `mincha_hol` is `floor5(min sunset - 17) = 1025`, not the
claimed `floor5(min sunset - 18) = 1020`, and `arvit_hol` is defaulted
to `0` instead of being absent. -/
theorem claim2_counterexample :
    (united3_calculate_times Season.winter 977 1036 none none
        (some 1042) (some 1072)).mincha_hol = some 1025 ∧
    some (round_to_nearest_five (min 1042 1072 - 18)) = some (1020 : Int) ∧
    (united3_calculate_times Season.winter 977 1036 none none
        (some 1042) (some 1072)).arvit_hol = some 0 := by
  decide

/-- C2 amended: in horaires_shabbat.py, when both weekday sunset samples
are present, `mincha_hol = floor5(min sunset - 18)` and
`arvit_hol = ceil5(max sunset + 20)`; when either sample is missing both
entries are `none`.  The united3.py revision instead uses the dusk
average for the evening service, defaults it to `0`, and subtracts 17. -/
theorem claim2_weekday_services (season : Season)
    (start_minutes end_minutes sunset_a sunset_b : Int) :
    ((calculate_times season start_minutes end_minutes
        (some sunset_a) (some sunset_b)).mincha_hol
          = some (round_to_nearest_five (min sunset_a sunset_b - 18)) ∧
     (calculate_times season start_minutes end_minutes
        (some sunset_a) (some sunset_b)).arvit_hol
          = round_to_next_five (some (max sunset_a sunset_b + 20))) ∧
    ∀ ss ts : Option Int, (ss = none ∨ ts = none) →
      (calculate_times season start_minutes end_minutes ss ts).mincha_hol = none ∧
      (calculate_times season start_minutes end_minutes ss ts).arvit_hol = none := by
  constructor
  · exact ⟨rfl, rfl⟩
  · intro ss ts hnone
    rcases hnone with h | h
    · subst h
      cases ts <;> simp [calculate_times]
    · subst h
      cases ss <;> simp [calculate_times]

/-- Witness for C2: with the sunset markers 17:40 and 17:52 the weekday
services are 17:20 and 18:15, and with a missing marker both are absent. -/
theorem claim2_weekday_services_witness :
    ((calculate_times Season.winter 977 1036 (some 1060) (some 1072)).mincha_hol
        = some (round_to_nearest_five (min 1060 1072 - 18)) ∧
     (calculate_times Season.winter 977 1036 (some 1060) (some 1072)).arvit_hol
        = round_to_next_five (some (max 1060 1072 + 20))) ∧
    ((calculate_times Season.winter 977 1036 none (some 1072)).mincha_hol = none ∧
     (calculate_times Season.winter 977 1036 none (some 1072)).arvit_hol = none) ∧
    (calculate_times Season.winter 977 1036 (some 1060) (some 1072)).mincha_hol
        = some 1040 ∧
    (calculate_times Season.winter 977 1036 (some 1060) (some 1072)).arvit_hol
        = some 1095 :=
  ⟨(claim2_weekday_services Season.winter 977 1036 1060 1072).1,
   (claim2_weekday_services Season.winter 977 1036 1060 1072).2 none (some 1072)
     (Or.inl rfl),
   by decide, by decide⟩

/-- C8: the afternoon and evening chain of `calculate_times` uses the
fixed offset and rounding constants `mincha_2 = floor5(end - 90)`,
`shiur_rav = floor5(mincha_2 - 45)`,
`parashat_hashavua = floor5(shiur_rav - 45)` and
`arvit_motsach = floor5(end - 9)`; at start 16:17 and end 17:16 the
closing evening service is `floor5(17:07) = 17:05 = 1025` minutes. -/
theorem claim8_afternoon_chain (season : Season) (start_minutes end_minutes : Int)
    (sunday_sunset thursday_sunset : Option Int) :
    ((calculate_times season start_minutes end_minutes
        sunday_sunset thursday_sunset).mincha_2
          = round_to_nearest_five (end_minutes - 90) ∧
     (calculate_times season start_minutes end_minutes
        sunday_sunset thursday_sunset).shiur_rav
          = round_to_nearest_five
              ((calculate_times season start_minutes end_minutes
                  sunday_sunset thursday_sunset).mincha_2 - 45) ∧
     (calculate_times season start_minutes end_minutes
        sunday_sunset thursday_sunset).parashat_hashavua
          = round_to_nearest_five
              ((calculate_times season start_minutes end_minutes
                  sunday_sunset thursday_sunset).shiur_rav - 45) ∧
     (calculate_times season start_minutes end_minutes
        sunday_sunset thursday_sunset).arvit_motsach
          = round_to_nearest_five (end_minutes - 9)) ∧
    (calculate_times Season.winter 977 1036 none none).arvit_motsach = 1025 := by
  refine ⟨⟨rfl, rfl, rfl, rfl⟩, by decide⟩

/-- One entry of the list built by `get_rosh_chodesh_days_for_next_month`:
a tuple `(gregorian_date, jewish_month, jewish_year, day_of_month)`. -/
structure RoshChodeshDay where
  gdate : Int
  jmonth : Int
  jyear : Int
  jday : Int
deriving DecidableEq

/-- The month-13 overflow rule shared by `get_next_month_molad` and
`get_rosh_chodesh_days_for_next_month`: month 13 is followed by month 1
of the next Jewish year, otherwise the month is incremented. -/
def next_jewish_month (current_jyear current_jmonth : Int) : Int × Int :=
  if current_jmonth = 13 then (current_jyear + 1, 1)
  else (current_jyear, current_jmonth + 1)

/-- Model of `get_rosh_chodesh_days_for_next_month`.  The Hebrew-calendar
capability supplies the current Jewish year and month of the reference
date, the day count of the current month, and the Gregorian dates of day
30 of the current month and day 1 of the next month; the function
prepends the day-30 entry exactly when the current month has 30 days and
always appends the day-1 entry. -/
def get_rosh_chodesh_days_for_next_month (current_jyear current_jmonth : Int)
    (days_in_current_month : Int) (rc0_gdate rc1_gdate : Int) :
    List RoshChodeshDay :=
  let next := next_jewish_month current_jyear current_jmonth
  let tail := [RoshChodeshDay.mk rc1_gdate next.2 next.1 1]
  if days_in_current_month = 30 then
    RoshChodeshDay.mk rc0_gdate current_jmonth current_jyear 30 :: tail
  else tail

/-- C3: the rosh chodesh window has exactly 1 or 2 entries, two exactly
when the current lunar month has 30 days, in which case it is the day-30
entry of the current month followed by the day-1 entry of the next
month, and otherwise just the day-1 entry. -/
theorem claim3_rosh_chodesh_window (current_jyear current_jmonth : Int)
    (days_in_current_month : Int) (rc0_gdate rc1_gdate : Int) :
    ((get_rosh_chodesh_days_for_next_month current_jyear current_jmonth
        days_in_current_month rc0_gdate rc1_gdate).length = 1 ∨
     (get_rosh_chodesh_days_for_next_month current_jyear current_jmonth
        days_in_current_month rc0_gdate rc1_gdate).length = 2) ∧
    ((get_rosh_chodesh_days_for_next_month current_jyear current_jmonth
        days_in_current_month rc0_gdate rc1_gdate).length = 2 ↔
      days_in_current_month = 30) ∧
    get_rosh_chodesh_days_for_next_month current_jyear current_jmonth
        days_in_current_month rc0_gdate rc1_gdate =
      (if days_in_current_month = 30 then
        [RoshChodeshDay.mk rc0_gdate current_jmonth current_jyear 30,
         RoshChodeshDay.mk rc1_gdate
           (next_jewish_month current_jyear current_jmonth).2
           (next_jewish_month current_jyear current_jmonth).1 1]
      else
        [RoshChodeshDay.mk rc1_gdate
           (next_jewish_month current_jyear current_jmonth).2
           (next_jewish_month current_jyear current_jmonth).1 1]) := by
  unfold get_rosh_chodesh_days_for_next_month
  split <;> simp_all

/-- Model of `ShabbatScheduleGenerator.get_mevarchim_friday`.  Dates are
integer day counts from a Monday epoch, so `d % 7` is the Python
`date.weekday()` value (Monday 0, Friday 4, Saturday 5). -/
def get_mevarchim_friday (rosh_date : Int) : Int :=
  if rosh_date % 7 = 4 then rosh_date - 7
  else if rosh_date % 7 = 5 then rosh_date - 8
  else rosh_date - ((rosh_date % 7 - 4 + 7) % 7)

/-- The membership test of `identify_shabbat_mevarchim` restricted to a
single candidate Friday: the candidate is marked exactly when it equals
the mapped announcement Friday of the rosh chodesh date and that mapped
Friday falls strictly earlier than the rosh chodesh date. -/
def is_mevarchim (candidate_friday rosh_date : Int) : Bool :=
  decide (get_mevarchim_friday rosh_date = candidate_friday) &&
  decide (get_mevarchim_friday rosh_date < rosh_date)

/-- The mapped announcement Friday always precedes the rosh chodesh date:
every branch of `get_mevarchim_friday` subtracts at least two days. -/
theorem get_mevarchim_friday_lt (rosh_date : Int) :
    get_mevarchim_friday rosh_date < rosh_date := by
  unfold get_mevarchim_friday
  split
  · omega
  · split
    · omega
    · omega

/-- C4: `is_mevarchim` holds exactly when the candidate Friday equals the
mapped announcement Friday and that Friday is strictly earlier than the
rosh chodesh date; in particular it is false whenever the rosh chodesh
date is on or before the candidate Friday. -/
theorem claim4_is_mevarchim (candidate_friday rosh_date : Int) :
    (is_mevarchim candidate_friday rosh_date = true ↔
      (candidate_friday = get_mevarchim_friday rosh_date ∧
        get_mevarchim_friday rosh_date < rosh_date)) ∧
    (rosh_date ≤ candidate_friday →
      is_mevarchim candidate_friday rosh_date = false) := by
  have hlt := get_mevarchim_friday_lt rosh_date
  constructor
  · unfold is_mevarchim
    rw [Bool.and_eq_true, decide_eq_true_iff, decide_eq_true_iff]
    constructor
    · rintro ⟨h1, h2⟩
      exact ⟨h1.symm, h2⟩
    · rintro ⟨h1, h2⟩
      exact ⟨h1.symm, h2⟩
  · intro hle
    simp only [is_mevarchim, Bool.and_eq_false_iff, decide_eq_false_iff_not]
    left
    omega

/-- Witness for C4: a rosh chodesh date on or before the candidate Friday
is never an announcement match. -/
theorem claim4_is_mevarchim_witness : is_mevarchim 10 8 = false :=
  (claim4_is_mevarchim 10 8).2 (by decide)

/-- C6 counterexample: at `x = 3`, which is not a multiple of 5,
`floor5 3 = 0` and `ceil5 3 = 5`, so the claimed strict bound
`ceil5 x < floor5 x + 5` fails. -/
theorem claim6_counterexample :
    ¬ (5 : Int) ∣ 3 ∧
    round_to_nearest_five 3 ≤ 3 ∧ (3 : Int) ≤ round_to_next_five_val 3 ∧
    ¬ round_to_next_five_val 3 < round_to_nearest_five 3 + 5 := by
  refine ⟨by decide, by decide, by decide, by decide⟩

/-- C6 amended: `floor5` and `ceil5` are idempotent and satisfy
`floor5 x ≤ x ≤ ceil5 x ≤ floor5 x + 5`; `x` is a multiple of 5 exactly
when `floor5 x = x = ceil5 x`, and otherwise `ceil5 x = floor5 x + 5`,
so the bound `ceil5 x ≤ floor5 x + 5` is tight rather than strict. -/
theorem claim6_rounding_properties (x : Int) :
    round_to_nearest_five (round_to_nearest_five x) = round_to_nearest_five x ∧
    round_to_next_five_val (round_to_next_five_val x) = round_to_next_five_val x ∧
    round_to_nearest_five x ≤ x ∧ x ≤ round_to_next_five_val x ∧
    round_to_next_five_val x ≤ round_to_nearest_five x + 5 ∧
    ((5 : Int) ∣ x ↔
      (round_to_nearest_five x = x ∧ round_to_next_five_val x = x)) ∧
    (¬ (5 : Int) ∣ x ↔
      round_to_next_five_val x = round_to_nearest_five x + 5) := by
  have h1 : Int.fdiv x 5 = x / 5 := Int.fdiv_eq_ediv x (by norm_num)
  have h2 : Int.fdiv (x + 4) 5 = (x + 4) / 5 := Int.fdiv_eq_ediv (x + 4) (by norm_num)
  have h3 : Int.fdiv (Int.fdiv x 5 * 5) 5 = Int.fdiv x 5 * 5 / 5 :=
    Int.fdiv_eq_ediv (Int.fdiv x 5 * 5) (by norm_num)
  have h4 : Int.fdiv (Int.fdiv (x + 4) 5 * 5 + 4) 5
      = (Int.fdiv (x + 4) 5 * 5 + 4) / 5 :=
    Int.fdiv_eq_ediv (Int.fdiv (x + 4) 5 * 5 + 4) (by norm_num)
  have hdvd : (5 : Int) ∣ x ↔ x % 5 = 0 := Int.dvd_iff_emod_eq_zero
  simp only [round_to_nearest_five, round_to_next_five_val, hdvd]
  rw [h3, h4, h1, h2]
  omega

/-- Calendar date (day count from the epoch) of an instant measured in
rational seconds, as obtained by the Python `.date()` call. -/
def date_of_instant (t : ℚ) : Int := ⌊t / 86400⌋

/-- Model of `calculate_last_kiddush_levana_date`.  The Hebrew-calendar
capability supplies the molad hour, minute and chalakim; the function
anchors them at midnight of the given Gregorian date
(`datetime.combine(gregorian_date, datetime.min.time())`), adds
`hours + minutes + chalakim * 10 / 18 seconds`, and returns the molad
instant together with `molad + 12 days 18 hours`. -/
def calculate_last_kiddush_levana_date
    (gregorian_date molad_hours molad_minutes molad_chalakim : Int) : ℚ × ℚ :=
  let molad_dt : ℚ := (gregorian_date : ℚ) * 86400 + (molad_hours : ℚ) * 3600
      + (molad_minutes : ℚ) * 60 + (molad_chalakim : ℚ) * 10 / 18
  (molad_dt, molad_dt + (12 * 86400 + 18 * 3600))

/-- The three display branches of `create_image` for the new-month
blessing window. -/
inductive BirkatStatus where
  | before
  | within
  | after
deriving DecidableEq

/-- Model of the branch structure of `create_image` on the blessing
window: `start_kiddush_levana = molad_dt + 6 days`, then the queried
Shabbat date is compared against the dates of the window bounds. -/
def classify_birkat_halevana (shabbat_date_only : Int)
    (molad_dt latest_kiddush_levana : ℚ) : BirkatStatus :=
  let start_kiddush_levana := molad_dt + 6 * 86400
  if shabbat_date_only < date_of_instant start_kiddush_levana then
    BirkatStatus.before
  else if date_of_instant start_kiddush_levana ≤ shabbat_date_only ∧
      shabbat_date_only ≤ date_of_instant latest_kiddush_levana then
    BirkatStatus.within
  else BirkatStatus.after

/-- Taking the date of an instant is monotone. -/
theorem date_of_instant_mono {a b : ℚ} (hab : a ≤ b) :
    date_of_instant a ≤ date_of_instant b := by
  unfold date_of_instant
  exact Int.floor_le_floor (by gcongr)

/-- C5: the blessing window satisfies `start = molad + 6 days` and
`end = molad + 12 days 18 hours`, and the query date is classified as
before, within or after by plain range comparison of dates. -/
theorem claim5_birkat_window
    (gregorian_date molad_hours molad_minutes molad_chalakim : Int)
    (shabbat_date_only : Int) :
    (calculate_last_kiddush_levana_date gregorian_date molad_hours
        molad_minutes molad_chalakim).2
      = (calculate_last_kiddush_levana_date gregorian_date molad_hours
          molad_minutes molad_chalakim).1 + (12 * 86400 + 18 * 3600) ∧
    ((classify_birkat_halevana shabbat_date_only
        (calculate_last_kiddush_levana_date gregorian_date molad_hours
          molad_minutes molad_chalakim).1
        (calculate_last_kiddush_levana_date gregorian_date molad_hours
          molad_minutes molad_chalakim).2 = BirkatStatus.before ↔
      shabbat_date_only < date_of_instant
        ((calculate_last_kiddush_levana_date gregorian_date molad_hours
          molad_minutes molad_chalakim).1 + 6 * 86400)) ∧
    (classify_birkat_halevana shabbat_date_only
        (calculate_last_kiddush_levana_date gregorian_date molad_hours
          molad_minutes molad_chalakim).1
        (calculate_last_kiddush_levana_date gregorian_date molad_hours
          molad_minutes molad_chalakim).2 = BirkatStatus.within ↔
      (date_of_instant
        ((calculate_last_kiddush_levana_date gregorian_date molad_hours
          molad_minutes molad_chalakim).1 + 6 * 86400) ≤ shabbat_date_only ∧
       shabbat_date_only ≤ date_of_instant
        (calculate_last_kiddush_levana_date gregorian_date molad_hours
          molad_minutes molad_chalakim).2)) ∧
    (classify_birkat_halevana shabbat_date_only
        (calculate_last_kiddush_levana_date gregorian_date molad_hours
          molad_minutes molad_chalakim).1
        (calculate_last_kiddush_levana_date gregorian_date molad_hours
          molad_minutes molad_chalakim).2 = BirkatStatus.after ↔
      date_of_instant
        (calculate_last_kiddush_levana_date gregorian_date molad_hours
          molad_minutes molad_chalakim).2 < shabbat_date_only)) := by
  set p := calculate_last_kiddush_levana_date gregorian_date molad_hours
    molad_minutes molad_chalakim with hp
  have hend : p.2 = p.1 + (12 * 86400 + 18 * 3600) := rfl
  have hmono : date_of_instant (p.1 + 6 * 86400) ≤ date_of_instant p.2 := by
    rw [hend]
    apply date_of_instant_mono
    norm_num
  refine ⟨hend, ?_, ?_, ?_⟩ <;>
    · unfold classify_birkat_halevana
      dsimp only
      split_ifs with h1 h2 <;> simp <;> omega

/-- Definition following the words of the spec, for comparison with the
source conversion: each chelek is 1/18 of a minute, so the molad instant
is the day start plus the hours, the minutes, and
`chalakim * 60 / 18` seconds. -/
def molad_instant_spec
    (gregorian_date molad_hours molad_minutes molad_chalakim : Int) : ℚ :=
  (gregorian_date : ℚ) * 86400 + (molad_hours : ℚ) * 3600
    + (molad_minutes : ℚ) * 60 + (molad_chalakim : ℚ) * 60 / 18

/-- C7: the source converts chalakim at `10 / 18` of a second each, not
the `60 / 18` of a second that 18-chalakim-per-minute requires: at
9 chalakim past midnight the coded molad instant is 5 seconds while the
specified one is 30 seconds. -/
theorem claim7_chalakim_conversion :
    (calculate_last_kiddush_levana_date 0 0 0 9).1 = 5 ∧
    molad_instant_spec 0 0 0 9 = 30 ∧
    (calculate_last_kiddush_levana_date 0 0 0 9).1 ≠ molad_instant_spec 0 0 0 9 := by
  refine ⟨?_, ?_, ?_⟩ <;>
    norm_num [calculate_last_kiddush_levana_date, molad_instant_spec]

/-- C9 counterexample: for the inverted anchor pair start 17:00 (1020)
and end 16:00 (960), `calculate_times` does not fail: it returns this
fully populated schedule. -/
theorem claim9_counterexample :
    (960 : Int) ≤ 1020 ∧
    calculate_times Season.winter 1020 960 none none =
      { mincha_kabbalat := 1020, shir_hashirim := 1010, shacharit := 465,
        mincha_gdola := 750, tehilim := 840, tehilim_ete := 1020,
        tehilim_hiver := 840, shiur_nashim := 975, arvit_hol := none,
        arvit_motsach := 950, mincha_2 := 870, shiur_rav := 825,
        parashat_hashavua := 780, mincha_hol := none } := by
  refine ⟨by decide, by decide⟩

/-- C9 amended: anchor pairs with `end ≤ start` are not rejected;
`calculate_times` has no validation and applies the same offset formulas
to any pair of integer anchors. -/
theorem claim9_no_rejection (season : Season) (start_minutes end_minutes : Int)
    (sunday_sunset thursday_sunset : Option Int)
    (h : end_minutes ≤ start_minutes) :
    (calculate_times season start_minutes end_minutes
        sunday_sunset thursday_sunset).mincha_kabbalat = start_minutes ∧
    (calculate_times season start_minutes end_minutes
        sunday_sunset thursday_sunset).mincha_2
      = round_to_nearest_five (end_minutes - 90) ∧
    (calculate_times season start_minutes end_minutes
        sunday_sunset thursday_sunset).arvit_motsach
      = round_to_nearest_five (end_minutes - 9) :=
  ⟨rfl, rfl, rfl⟩

/-- Witness for C9 at the inverted pair 17:00 / 16:00. -/
theorem claim9_no_rejection_witness :
    (960 : Int) ≤ 1020 ∧
    ((calculate_times Season.winter 1020 960 none none).mincha_kabbalat = 1020 ∧
     (calculate_times Season.winter 1020 960 none none).mincha_2
        = round_to_nearest_five (960 - 90) ∧
     (calculate_times Season.winter 1020 960 none none).arvit_motsach
        = round_to_nearest_five (960 - 9)) :=
  ⟨by decide, claim9_no_rejection Season.winter 1020 960 none none (by decide)⟩

/-- Lexicographic comparison of two datetimes of the same year, given as
month, day and minute of the day, as performed by Python on `datetime`
values. -/
def date_le (month1 day1 minute1 month2 day2 minute2 : Int) : Bool :=
  decide (month1 < month2) ||
  (decide (month1 = month2) &&
    (decide (day1 < day2) || (decide (day1 = day2) && decide (minute1 ≤ minute2))))

/-- Model of `ShabbatScheduleGenerator.determine_season`: the current
wall-clock instant (month, day and minute of day, read from
`datetime.now()`) is compared against March 29 and October 26 of the
same year; inside the inclusive range the season is summer, otherwise
winter. -/
def determine_season (month day minute : Int) : Season :=
  if date_le 3 29 0 month day minute && date_le month day minute 10 26 0
  then Season.summer else Season.winter

/-- The deployed derivation: the generator stores
`self.season = determine_season()` from the current wall-clock date at
construction and `calculate_times` reads that field. -/
def generator_calculate_times (now_month now_day now_minute : Int)
    (start_minutes end_minutes : Int)
    (sunday_sunset thursday_sunset : Option Int) : Times :=
  calculate_times (determine_season now_month now_day now_minute)
    start_minutes end_minutes sunday_sunset thursday_sunset

/-- The afternoon service is a fixed seasonal constant: 12:30 (750) in
winter and 13:00 (780) in summer, for every anchor input. -/
theorem mincha_gdola_by_season (season : Season) (start_minutes end_minutes : Int)
    (sunday_sunset thursday_sunset : Option Int) :
    (calculate_times season start_minutes end_minutes
        sunday_sunset thursday_sunset).mincha_gdola
      = if season = Season.winter then 750 else 780 := by
  cases season <;> rfl

/-- C10 counterexample: the same anchor inputs evaluated under a January
wall clock and under a July wall clock yield different schedules, so the
deployed derivation is not independent of the system clock. -/
theorem claim10_counterexample :
    generator_calculate_times 1 15 600 977 1036 none none ≠
    generator_calculate_times 7 15 600 977 1036 none none := by
  decide

/-- C10 amended: with the ambient state made explicit, the derivation is
deterministic, and two invocations with identical anchor inputs return
identical results exactly when their wall-clock dates resolve to the
same seasonal regime; the season (and the internally computed weekday
sunsets, modeled here as inputs) are genuine hidden inputs of
`calculate_times`. -/
theorem claim10_clock_dependence
    (month1 day1 minute1 month2 day2 minute2 : Int)
    (start_minutes end_minutes : Int)
    (sunday_sunset thursday_sunset : Option Int) :
    generator_calculate_times month1 day1 minute1 start_minutes end_minutes
        sunday_sunset thursday_sunset
      = generator_calculate_times month2 day2 minute2 start_minutes end_minutes
        sunday_sunset thursday_sunset ↔
    determine_season month1 day1 minute1 = determine_season month2 day2 minute2 := by
  unfold generator_calculate_times
  constructor
  · intro heq
    have hg := congrArg Times.mincha_gdola heq
    rw [mincha_gdola_by_season, mincha_gdola_by_season] at hg
    cases h1 : determine_season month1 day1 minute1 <;>
      cases h2 : determine_season month2 day2 minute2 <;>
      simp_all
  · intro heq
    rw [heq]
